import Mathlib

/-! Verification of the transaction-matching core of the audit script.

This file shallowly embeds the matching engine of the bank-statement audit
script (`src/audit.py`): the reference extractor, the tiered match resolver,
the per-transaction orchestrator step, the audit-note synchronizer and the
coverage summary. External collaborators (the Paperless HTTP API, the
spreadsheet/OCR extraction, the language-model call) are modelled as data:
the document search adapter becomes an oracle function from a search call to
a ranked result list, and the note store becomes an explicit list of notes.

Modelling conventions:
* Monetary amounts are exact two-decimal values, represented as an integer
  number of cents; the script's `f"{abs(amount):.2f}"` formatting is
  reproduced on cents.
* `date.fromisoformat` is modelled for the `YYYY-MM-DD` calendar-date form
  the script works with, validating month lengths and requiring year ≥ 1.
  Day arithmetic (`timedelta`) is proleptic Gregorian via ordinal day
  numbers; Python's additional year-9999 bound is outside the model, as no
  property here touches it.
* Python regex classes `\d`, `\s`, `\S` are modelled over `Char.isDigit`
  and `Char.isWhitespace`; the matchers reproduce `re.finditer` semantics
  (leftmost, non-overlapping, greedy with backtracking) for the three
  concrete patterns the script uses.
* Python truthiness tests on optional ids (`if tx.get("matched_doc_id"):`,
  `if old_id:`) are modelled exactly: an id of `0` is falsy.
-/

/-- A document as returned by the search adapter: the fields of a Paperless
search result the script reads (`id`, `title`, `tags`). -/
structure Doc where
  id : Nat
  title : String
  tags : List Int
deriving DecidableEq

/-- A transaction as extracted from a statement (`date`, `amount` in cents,
`counterparty`, `description`, `ref`) plus the two match fields the
orchestrator may fill in. -/
structure Tx where
  date : String
  amount : Int
  counterparty : String
  description : String
  ref : String
  matched_doc_id : Option Nat
  matched_title : Option String
deriving DecidableEq

/-- One invocation of `search_documents`: the query string and the optional
`created__date__gte` / `created__date__lte` filters. -/
structure SearchCall where
  query : String
  date_from : Option String
  date_to : Option String
deriving DecidableEq

/-- The document search adapter as a black box: a ranked result list per
search call (spec §2, Document Search Adapter). -/
abbrev SearchFn := SearchCall → List Doc

/-- Python truthiness of an optional integer id: present and nonzero. -/
def truthy : Option Nat → Bool
  | none => false
  | some n => n != 0

-- ── Calendar arithmetic (`datetime.date`, `timedelta`) ────────────────

/-- Gregorian leap-year rule. -/
def isLeapYear (y : Nat) : Bool :=
  y % 4 == 0 && (y % 100 != 0 || y % 400 == 0)

/-- Length of month `m` of year `y`. -/
def daysInMonth (y m : Nat) : Nat :=
  if m = 2 then (if isLeapYear y then 29 else 28)
  else if m = 4 ∨ m = 6 ∨ m = 9 ∨ m = 11 then 30
  else 31

/-- Ordinal day number of a Gregorian date, counted from 0000-03-01 = 0
(shifted civil calendar; only differences of ordinals matter here). -/
def toOrdinal : Nat × Nat × Nat → Int
  | (y, m, d) =>
    let ys : Int := (y : Int) - (if m ≤ 2 then 1 else 0)
    let era : Int := Int.fdiv ys 400
    let yoe : Int := ys - era * 400
    let mp : Int := (m : Int) + (if m > 2 then -3 else 9)
    let doy : Int := Int.fdiv (153 * mp + 2) 5 + (d : Int) - 1
    let doe : Int := yoe * 365 + Int.fdiv yoe 4 - Int.fdiv yoe 100 + doy
    era * 146097 + doe

/-- Inverse of `toOrdinal`: the Gregorian date of an ordinal day number. -/
def fromOrdinal (z : Int) : Int × Int × Int :=
  let era : Int := Int.fdiv z 146097
  let doe : Int := z - era * 146097
  let yoe : Int :=
    Int.fdiv (doe - Int.fdiv doe 1460 + Int.fdiv doe 36524 - Int.fdiv doe 146096) 365
  let y : Int := yoe + era * 400
  let doy : Int := doe - (365 * yoe + Int.fdiv yoe 4 - Int.fdiv yoe 100)
  let mp : Int := Int.fdiv (5 * doy + 2) 153
  let d : Int := doy - Int.fdiv (153 * mp + 2) 5 + 1
  let m : Int := mp + (if mp < 10 then 3 else -9)
  (y + (if m ≤ 2 then 1 else 0), m, d)

/-- Zero-pad a natural to two digits. -/
def pad2 (n : Nat) : String :=
  if n < 10 then "0" ++ toString n else toString n

/-- Zero-pad a natural to four digits. -/
def pad4 (n : Nat) : String :=
  if n < 10 then "000" ++ toString n
  else if n < 100 then "00" ++ toString n
  else if n < 1000 then "0" ++ toString n
  else toString n

/-- Model of `date.isoformat()` on an ordinal day number. -/
def isoOfOrdinal (z : Int) : String :=
  let c := fromOrdinal z
  pad4 c.1.toNat ++ "-" ++ pad2 c.2.1.toNat ++ "-" ++ pad2 c.2.2.toNat

/-- Numeric value of a decimal digit character. -/
def digitVal (c : Char) : Nat := c.toNat - 48

/-- Model of `date.fromisoformat` on the `YYYY-MM-DD` calendar-date form:
four digit
year ≥ 1, valid month, day within the month's length. Any other string is
rejected (Python raises `ValueError`, modelled as `none`). -/
def parseIsoDate (s : String) : Option (Nat × Nat × Nat) :=
  match s.data with
  | [y1, y2, y3, y4, c1, m1, m2, c2, d1, d2] =>
    if y1.isDigit && y2.isDigit && y3.isDigit && y4.isDigit && c1 == '-'
        && m1.isDigit && m2.isDigit && c2 == '-' && d1.isDigit && d2.isDigit then
      let y := ((digitVal y1 * 10 + digitVal y2) * 10 + digitVal y3) * 10 + digitVal y4
      let m := digitVal m1 * 10 + digitVal m2
      let d := digitVal d1 * 10 + digitVal d2
      if 1 ≤ y && 1 ≤ m && m ≤ 12 && 1 ≤ d && d ≤ daysInMonth y m then
        some (y, m, d)
      else none
    else none
  | _ => none

/-- Model of the `.2f` format for a nonnegative exact two-decimal amount
given in cents. -/
def formatAmount (cents : Nat) : String :=
  toString (cents / 100) ++ "." ++ pad2 (cents % 100)

-- ── Reference extraction (`extract_refs`, lines 213-231) ─────────────

/-- Drop trailing non-digit characters (the trailing hyphens a greedy
`[\d-]+` must give back so that the final `\d` can match). -/
def trimToDigit (l : List Char) : List Char :=
  (l.reverse.dropWhile (fun c => !c.isDigit)).reverse

/-- Attempt pattern `[A-Z]{2,}-\d[\d-]+\d` at the start of the input.
Returns the matched characters (`group(0)`) and the remaining input after
the match end. The uppercase run must be maximal (a shorter run would put
an uppercase letter where the literal hyphen is required), and the digit
group is the longest prefix of digits/hyphens that ends in a digit and has
length at least three. -/
def tryPat1 (s : List Char) : Option (List Char × List Char) :=
  let up := s.takeWhile Char.isUpper
  let r1 := s.dropWhile Char.isUpper
  if up.length ≥ 2 then
    match r1 with
    | '-' :: r2 =>
      match r2 with
      | c :: _ =>
        if c.isDigit then
          let run := r2.takeWhile (fun ch => ch.isDigit || ch == '-')
          let core := trimToDigit run
          if core.length ≥ 3 then some (up ++ '-' :: core, r2.drop core.length)
          else none
        else none
      | [] => none
    | _ => none
  else none

/-- The `\s*(\S+)` tail shared by pattern 2's two `\.?` alternatives:
skip whitespace, then capture a maximal nonempty non-whitespace run. -/
def tailTok (r : List Char) : Option (List Char × List Char) :=
  let r1 := r.dropWhile Char.isWhitespace
  let tok := r1.takeWhile (fun ch => !ch.isWhitespace)
  if tok.isEmpty then none else some (tok, r1.drop tok.length)

/-- Attempt pattern `[Nn]r\.?\s*(\S+)` at the start of the input. Returns
the captured group and the input after the match end. The optional dot is
greedy: the engine first tries to consume it and falls back to leaving it
for `\S+` when nothing follows it. -/
def tryPat2 (s : List Char) : Option (List Char × List Char) :=
  match s with
  | c :: 'r' :: r2 =>
    if c == 'N' || c == 'n' then
      match r2 with
      | '.' :: r3 =>
        match tailTok r3 with
        | some x => some x
        | none => tailTok r2
      | _ => tailTok r2
    else none
  | _ => none

/-- Attempt pattern `[Rr]ēķin\S*\s+\S*\s*(\S+)` at the start of the input.
Returns the captured group and the input after the match end. After the
mandatory whitespace there must be a non-whitespace run `B`; if another
run follows, it is captured, otherwise the engine backtracks the greedy
middle `\S*` by one character and captures the last character of `B`. -/
def tryPat3 (s : List Char) : Option (List Char × List Char) :=
  match s with
  | c :: 'ē' :: 'ķ' :: 'i' :: 'n' :: r =>
    if c == 'R' || c == 'r' then
      let r1 := r.dropWhile (fun ch => !ch.isWhitespace)
      let sp := r1.takeWhile Char.isWhitespace
      if sp.isEmpty then none
      else
        let r2 := r1.dropWhile Char.isWhitespace
        let b := r2.takeWhile (fun ch => !ch.isWhitespace)
        match b.reverse with
        | [] => none
        | bLast :: _ =>
          let r3 := r2.dropWhile (fun ch => !ch.isWhitespace)
          let r4 := r3.dropWhile Char.isWhitespace
          let cTok := r4.takeWhile (fun ch => !ch.isWhitespace)
          if cTok.isEmpty then some ([bLast], r3)
          else some (cTok, r4.drop cTok.length)
    else none
  | _ => none

/-- Model of `re.finditer` over the input: try the pattern at each position, left to
right; on a match, emit its token and resume after the match end (matches
are non-overlapping and nonempty). The fuel argument bounds the number of
steps; each step strictly shortens the input, so input length suffices. -/
def scanMatches (tryAt : List Char → Option (List Char × List Char)) :
    Nat → List Char → List String
  | 0, _ => []
  | _ + 1, [] => []
  | fuel + 1, c :: cs =>
    match tryAt (c :: cs) with
    | some (tok, rest) => String.mk tok :: scanMatches tryAt fuel rest
    | none => scanMatches tryAt fuel cs

/-- All matches of one pattern in a description. -/
def findAll (tryAt : List Char → Option (List Char × List Char))
    (s : List Char) : List String :=
  scanMatches tryAt s.length s

/-- Model of `extract_refs` (lines 213-231): the `ref` field first when nonempty,
then all hits of the three description patterns, in rule order, without
deduplication. -/
def extract_refs (tx : Tx) : List String :=
  let base := if tx.ref == "" then [] else [tx.ref]
  let d := tx.description.data
  base ++ findAll tryPat1 d ++ findAll tryPat2 d ++ findAll tryPat3 d


-- ── Match resolver (`match_transaction`, lines 243-285) ───────────────

/-- Model of `find_non_statement` (lines 234-240): first search result whose tag
set does not contain the bank-statement tag id. -/
def find_non_statement (tagId : Int) (results : List Doc) : Option Doc :=
  results.find? (fun doc => !decide (tagId ∈ doc.tags))

/-- The absolute amount as formatted on line 247. -/
def abs_amount_str (tx : Tx) : String := formatAmount tx.amount.natAbs

/-- The tier-1/2 date window (lines 249-258): look back 365 days for
credits (amount > 0), 30 days for debits, and forward 14 days; no window
when the date does not parse. -/
def tx_window (tx : Tx) : Option String × Option String :=
  let lookback : Int := if tx.amount > 0 then 365 else 30
  match parseIsoDate tx.date with
  | some ymd =>
    (some (isoOfOrdinal (toOrdinal ymd - lookback)),
     some (isoOfOrdinal (toOrdinal ymd + 14)))
  | none => (none, none)

/-- The tier-3 narrow window (lines 274-279): five days either side of the
transaction date; no window when the date does not parse. -/
def tx_narrow_window (tx : Tx) : Option String × Option String :=
  match parseIsoDate tx.date with
  | some ymd =>
    (some (isoOfOrdinal (toOrdinal ymd - 5)),
     some (isoOfOrdinal (toOrdinal ymd + 5)))
  | none => (none, none)

/-- The tier-2 search call (line 268): counterparty and absolute amount,
tier-1/2 window. -/
def tier2call (tx : Tx) : SearchCall :=
  ⟨tx.counterparty ++ " " ++ abs_amount_str tx, (tx_window tx).1, (tx_window tx).2⟩

/-- The tier-3 search call (line 280): absolute amount alone, narrow
window. -/
def tier3call (tx : Tx) : SearchCall :=
  ⟨abs_amount_str tx, (tx_narrow_window tx).1, (tx_narrow_window tx).2⟩

/-- The tier-1 loop (lines 261-265): search each extracted reference in
order; stop at the first acceptable hit. Returns the hit (if any) together
with the trace of search calls issued. -/
def refSearchLoop (oracle : SearchFn) (tagId : Int)
    (df dt : Option String) : List String → Option Doc × List SearchCall
  | [] => (none, [])
  | ref :: rest =>
    let call : SearchCall := ⟨ref, df, dt⟩
    match find_non_statement tagId (oracle call) with
    | some doc => (some doc, [call])
    | none =>
      let r := refSearchLoop oracle tagId df dt rest
      (r.1, call :: r.2)

/-- Model of `match_transaction` (lines 243-285), instrumented with the trace of
`search_documents` calls it issues. Tier 1 searches each extracted
reference, tier 2 the counterparty plus amount, tier 3 the amount alone;
each tier accepts the first non-statement result and later tiers run only
when earlier ones fail. -/
def match_transaction (oracle : SearchFn) (tagId : Int) (tx : Tx) :
    Option Doc × List SearchCall :=
  let t1 := refSearchLoop oracle tagId (tx_window tx).1 (tx_window tx).2
    (extract_refs tx)
  match t1.1 with
  | some doc => (some doc, t1.2)
  | none =>
    match find_non_statement tagId (oracle (tier2call tx)) with
    | some doc => (some doc, t1.2 ++ [tier2call tx])
    | none =>
      match find_non_statement tagId (oracle (tier3call tx)) with
      | some doc => (some doc, t1.2 ++ [tier2call tx, tier3call tx])
      | none => (none, t1.2 ++ [tier2call tx, tier3call tx])

-- ── Spec-side description of the tiering (spec §4.2) ──────────────────

/-- Modelled from the spec: the first value an option-producing function
yields over a list, in order ("the first tier producing an acceptable
candidate wins"). -/
def firstHit (f : String → Option Doc) : List String → Option Doc
  | [] => none
  | r :: rs =>
    match f r with
    | some d => some d
    | none => firstHit f rs

/-- Modelled from the spec: the arguments actually tried, up to and
including the first that yields a value ("stop at the first token that
yields an acceptable hit"). -/
def triedUntilHit (f : String → Option Doc) : List String → List String
  | [] => []
  | r :: rs =>
    match f r with
    | some _ => [r]
    | none => r :: triedUntilHit f rs

/-- The outcome of one tier-1 reference search, as the spec describes it:
a content search for the token, tier-1/2 window, non-statement filter. -/
def tier1_hit (oracle : SearchFn) (tagId : Int) (tx : Tx) (r : String) :
    Option Doc :=
  find_non_statement tagId (oracle ⟨r, (tx_window tx).1, (tx_window tx).2⟩)

/-- Modelled from the spec (§4.2 tier 1): first acceptable hit over the
extracted references in priority order. -/
def tier1_result (oracle : SearchFn) (tagId : Int) (tx : Tx) : Option Doc :=
  firstHit (tier1_hit oracle tagId tx) (extract_refs tx)

/-- The tier-1 search calls actually issued. -/
def tier1_attempts (oracle : SearchFn) (tagId : Int) (tx : Tx) :
    List SearchCall :=
  (triedUntilHit (tier1_hit oracle tagId tx) (extract_refs tx)).map
    (fun r => ⟨r, (tx_window tx).1, (tx_window tx).2⟩)

/-- Modelled from the spec (§4.2 tier 2): counterparty+amount search,
non-statement filter. -/
def tier2_result (oracle : SearchFn) (tagId : Int) (tx : Tx) : Option Doc :=
  find_non_statement tagId (oracle (tier2call tx))

/-- Modelled from the spec (§4.2 tier 3): amount-only search, narrow
window, non-statement filter. -/
def tier3_result (oracle : SearchFn) (tagId : Int) (tx : Tx) : Option Doc :=
  find_non_statement tagId (oracle (tier3call tx))

/-- Modelled from the spec (§4.2): strictly tiered resolution — the first
tier producing an acceptable candidate wins, none when all tiers fail. -/
def spec_tiered_result (oracle : SearchFn) (tagId : Int) (tx : Tx) :
    Option Doc :=
  match tier1_result oracle tagId tx with
  | some d => some d
  | none =>
    match tier2_result oracle tagId tx with
    | some d => some d
    | none => tier3_result oracle tagId tx

/-- Modelled from the spec (§4.2): the searches a strictly tiered
resolution performs — tier-1 attempts up to the first hit, the tier-2
search only when tier 1 fails, the tier-3 search only when tier 2 also
fails. -/
def spec_tiered_calls (oracle : SearchFn) (tagId : Int) (tx : Tx) :
    List SearchCall :=
  tier1_attempts oracle tagId tx ++
    (if (tier1_result oracle tagId tx).isSome then []
     else tier2call tx ::
       (if (tier2_result oracle tagId tx).isSome then [] else [tier3call tx]))

-- ── Orchestrator per-transaction step (`main`, lines 417-434) ─────────

/-- The outcome of processing one transaction in the orchestrator loop:
the (possibly updated) transaction, the increments to the matched and
unmatched counters, and the search calls issued. -/
structure ProcResult where
  tx : Tx
  matched_inc : Nat
  unmatched_inc : Nat
  calls : List SearchCall
deriving DecidableEq

/-- One iteration of the orchestrator's transaction loop (lines 417-434):
skip (and count as matched) any transaction whose `matched_doc_id` is
truthy, otherwise resolve via `match_transaction` and on success store the
candidate's id and title on the transaction. -/
def process_tx (oracle : SearchFn) (tagId : Int) (tx : Tx) : ProcResult :=
  if truthy tx.matched_doc_id then ⟨tx, 1, 0, []⟩
  else
    let m := match_transaction oracle tagId tx
    match m.1 with
    | some doc =>
      ⟨{ tx with matched_doc_id := some doc.id, matched_title := some doc.title },
        1, 0, m.2⟩
    | none => ⟨tx, 0, 1, m.2⟩

/-- A transaction as the extraction step creates it (the JSON schema of
lines 166-176): the five extracted fields, neither match field present. -/
def extracted_tx (date : String) (amount : Int)
    (counterparty description ref : String) : Tx :=
  ⟨date, amount, counterparty, description, ref, none, none⟩

-- ── Coverage summary (`main`, lines 447-453) ──────────────────────────

/-- Round `num / den` to the nearest integer, ties to even — the rounding
`f"{x:.0f}"` applies. The script computes `matched / total * 100` in
floating point; the model treats the quotient as the exact rational. -/
def roundHalfEven (num den : Nat) : Nat :=
  let q := num / den
  let r := num % den
  if 2 * r < den then q
  else if den < 2 * r then q + 1
  else if q % 2 = 0 then q else q + 1

/-- The coverage percentage as printed (line 453). -/
def coveragePct (matched total : Nat) : Nat :=
  roundHalfEven (matched * 100) total

/-- The summary block printed at the end of a run (lines 448-453): the
separator, the three count lines, and — only when the total is nonzero —
the coverage line. -/
def summary_lines (total_matched total_unmatched : Nat) : List String :=
  let total := total_matched + total_unmatched
  [String.mk (List.replicate 60 '═'),
   "Total: " ++ toString total ++ " transactions",
   "  Matched:   " ++ toString total_matched,
   "  Unmatched: " ++ toString total_unmatched]
  ++ (if total = 0 then []
      else ["  Coverage:  " ++ toString (coveragePct total_matched total) ++ "%"])

-- ── Note synchronizer (lines 290-347) ─────────────────────────────────

/-- A note attached to a document in the store. -/
structure Note where
  id : Nat
  note : String
deriving DecidableEq

/-- The audit-note marker constant of line 290. -/
def AUDIT_MARKER : String := "[AUDIT]"

/-- Python's `str.startswith`. -/
def strStartsWith (s p : String) : Bool := p.data.isPrefixOf s.data

/-- Whether a note text is an audit note (line 297's check). -/
def is_audit_note (s : String) : Bool := strStartsWith s AUDIT_MARKER

/-- Model of `get_existing_audit_note` (lines 293-299): the id and text of the
first note whose text starts with the audit marker. -/
def get_existing_audit_note (notes : List Note) : Option (Nat × String) :=
  (notes.find? (fun n => is_audit_note n.note)).map (fun n => (n.id, n.note))

/-- The signed two-decimal amount format of line 304, on cents. -/
def formatSigned (cents : Int) : String :=
  (if cents < 0 then "-" else "") ++ formatAmount cents.natAbs

/-- Model of `format_tx_block` (lines 302-311): symbol, date and amount; the
counterparty; the description when nonempty; the match line when
`matched_doc_id` is truthy. -/
def format_tx_block (tx : Tx) (symbol : String) : String :=
  let lines := [symbol ++ " " ++ tx.date ++ " / " ++ formatSigned tx.amount,
                tx.counterparty]
  let lines := lines ++ (if tx.description == "" then [] else [tx.description])
  let lines := lines ++
    (if truthy tx.matched_doc_id then
      [match tx.matched_doc_id with
       | some i => "→ #" ++ toString i ++ " " ++ tx.matched_title.getD ""
       | none => ""]
     else [])
  String.intercalate "\n" lines

/-- The parts list `write_audit_note` assembles (lines 316-330): the
header, then the `[MISSING]` section when any transaction lacks a truthy
`matched_doc_id`, then the `[MATCHED]` section when any has one. -/
def audit_note_parts (txs : List Tx) : List String :=
  let missing := txs.filter (fun tx => !truthy tx.matched_doc_id)
  let matched := txs.filter (fun tx => truthy tx.matched_doc_id)
  let total := txs.length
  ["[AUDIT] " ++ toString matched.length ++ "/" ++ toString total]
  ++ (if missing.isEmpty then []
      else ("\n[MISSING][" ++ toString missing.length ++ "/" ++ toString total ++ "]")
        :: missing.map (fun tx => format_tx_block tx "✗"))
  ++ (if matched.isEmpty then []
      else ("\n[MATCHED][" ++ toString matched.length ++ "/" ++ toString total ++ "]")
        :: matched.map (fun tx => format_tx_block tx "✓"))

/-- The note text `write_audit_note` renders (line 332). -/
def audit_note_text (txs : List Tx) : String :=
  String.intercalate "\n\n" (audit_note_parts txs)

/-- Model of `write_audit_note` (lines 314-347) as a transition on the document's
note list: delete the first audit note when one is found and its id is
truthy, then create a note with the freshly rendered text (the store
assigns it `new_id`). -/
def write_audit_note (notes : List Note) (new_id : Nat) (txs : List Tx) :
    List Note :=
  let note_text := audit_note_text txs
  let notes1 :=
    match get_existing_audit_note notes with
    | some (old_id, _) =>
      if old_id ≠ 0 then notes.filter (fun n => n.id ≠ old_id) else notes
    | none => notes
  notes1 ++ [⟨new_id, note_text⟩]

-- ── Concrete fixtures used by witnesses and counterexamples ───────────

/-- An oracle returning a statement-tagged document followed by a
non-statement one, for every query. -/
def oracleW : SearchFn := fun _ => [⟨7, "statement", [3]⟩, ⟨42, "invoice", []⟩]

/-- An oracle with no results at all. -/
def oracle0 : SearchFn := fun _ => []

/-- A concrete debit transaction with a parseable date and one extractable
reference. -/
def txW : Tx := ⟨"2025-03-10", -12050, "Acme Ltd", "Nr. 55231", "", none, none⟩

/-- A concrete transaction with an unparseable date. -/
def txBad : Tx := ⟨"not-a-date", 500, "Beta SIA", "", "X-1", none, none⟩
/-- A transaction whose `matched_doc_id` is set but zero — falsy in
Python's `if tx.get("matched_doc_id"):`. -/
def txZero : Tx := ⟨"n/a", -100, "Gamma", "", "", some 0, some ""⟩

/-- A transaction with an ordinary (nonzero) established match. -/
def txDone : Tx := ⟨"2025-03-10", -12050, "Acme Ltd", "Nr. 55231", "",
  some 5, some "Acme Invoice"⟩
/-- A note list with one audit note, whose id is 0. -/
def notesZ : List Note := [⟨0, "[AUDIT] old"⟩]
/-- A note list with one non-audit note and one audit note with a normal
nonzero id. -/
def notesA : List Note := [⟨4, "hello"⟩, ⟨9, "[AUDIT] 1/2 old"⟩]
/-- Whitespace-delimited tokens of a character list (fuel-bounded; the
input length suffices as every step strictly shortens the input). -/
def wsTokensAux : Nat → List Char → List String
  | 0, _ => []
  | _ + 1, [] => []
  | fuel + 1, c :: cs =>
    if c.isWhitespace then wsTokensAux fuel cs
    else
      String.mk ((c :: cs).takeWhile (fun ch => !ch.isWhitespace))
        :: wsTokensAux fuel ((c :: cs).dropWhile (fun ch => !ch.isWhitespace))

/-- The whole whitespace-delimited tokens of a string. -/
def wsTokens (s : String) : List String := wsTokensAux s.data.length s.data

/-- The spec's own example transaction for rule (a). -/
def txExample : Tx :=
  ⟨"2025-03-10", 10000, "X", "Invoice DH-202512-10218 payment", "", none, none⟩

/-- A description in which the code pattern is embedded inside a longer
token. -/
def txFrag : Tx :=
  ⟨"2025-03-10", 10000, "X", "xDH-202512-10218y", "", none, none⟩

-- ── Characterization of the resolver ──────────────────────────────────

/-- The tier-1 loop returns the first acceptable hit and the trace of the
attempts made up to it. -/
theorem refSearchLoop_eq (oracle : SearchFn) (tagId : Int)
    (df dt : Option String) (refs : List String) :
    refSearchLoop oracle tagId df dt refs =
      (firstHit (fun r => find_non_statement tagId (oracle ⟨r, df, dt⟩)) refs,
       (triedUntilHit (fun r => find_non_statement tagId (oracle ⟨r, df, dt⟩))
          refs).map (fun r => ⟨r, df, dt⟩)) := by
  induction refs with
  | nil => rfl
  | cons r rest ih =>
    simp only [refSearchLoop, firstHit, triedUntilHit, ih]
    cases h : find_non_statement tagId (oracle ⟨r, df, dt⟩) with
    | some doc => simp [h]
    | none => simp [h]

/-- The resolver coincides, in both result and issued searches,
with the spec's strictly tiered description. -/
theorem match_transaction_spec (oracle : SearchFn) (tagId : Int) (tx : Tx) :
    match_transaction oracle tagId tx =
      (spec_tiered_result oracle tagId tx, spec_tiered_calls oracle tagId tx) := by
  unfold match_transaction spec_tiered_result spec_tiered_calls tier1_result
    tier1_attempts tier2_result tier3_result tier1_hit
  rw [refSearchLoop_eq]
  cases h1 : firstHit
      (fun r => find_non_statement tagId (oracle ⟨r, (tx_window tx).1, (tx_window tx).2⟩))
      (extract_refs tx) with
  | some d => simp [h1]
  | none =>
    cases h2 : find_non_statement tagId (oracle (tier2call tx)) with
    | some d => simp [h1, h2]
    | none =>
      cases h3 : find_non_statement tagId (oracle (tier3call tx)) <;>
        simp [h1, h2, h3]

/-- A result accepted by the non-statement filter is not tagged with the
bank-statement tag. -/
theorem find_non_statement_not_tagged {tagId : Int} {results : List Doc}
    {doc : Doc} (h : find_non_statement tagId results = some doc) :
    tagId ∉ doc.tags := by
  unfold find_non_statement at h
  simpa using List.find?_some h

/-- A hit of `firstHit` comes from one of the tried arguments. -/
theorem firstHit_some {f : String → Option Doc} {l : List String} {d : Doc}
    (h : firstHit f l = some d) : ∃ r, f r = some d := by
  induction l with
  | nil => simp [firstHit] at h
  | cons a as ih =>
    simp only [firstHit] at h
    split at h
    · exact ⟨a, by rw [‹f a = some _›]; exact congrArg _ (Option.some.inj h)⟩
    · exact ih h

/-- C1 — For every transaction and every sequence of search results
returned by the document store at any tier, `match_transaction` never
returns a candidate whose tag set contains the configured bank-statement
tag id: every tier filters its results through `find_non_statement`, which
returns the first entry whose tags do not contain that id and none if no
entry qualifies. -/
theorem match_transaction_never_statement (oracle : SearchFn) (tagId : Int)
    (tx : Tx) (doc : Doc)
    (h : (match_transaction oracle tagId tx).1 = some doc) :
    tagId ∉ doc.tags := by
  rw [match_transaction_spec] at h
  simp only [spec_tiered_result] at h
  cases h1 : tier1_result oracle tagId tx with
  | some d =>
    rw [h1] at h
    cases h
    unfold tier1_result at h1
    obtain ⟨r, hr⟩ := firstHit_some h1
    unfold tier1_hit at hr
    exact find_non_statement_not_tagged hr
  | none =>
    rw [h1] at h
    cases h2 : tier2_result oracle tagId tx with
    | some d =>
      rw [h2] at h
      cases h
      unfold tier2_result at h2
      exact find_non_statement_not_tagged h2
    | none =>
      rw [h2] at h
      unfold tier3_result at h
      exact find_non_statement_not_tagged h

/-- C2 — For every transaction, `match_transaction` executes its three
tiers (reference search over each extracted token in priority order, then
counterparty+amount search, then amount-only search) strictly in order,
returns the candidate from the first tier that produces an acceptable
(non-statement) hit without executing later tiers, and returns none when
all tiers are exhausted without an acceptable candidate. -/
theorem match_transaction_tiered (oracle : SearchFn) (tagId : Int) (tx : Tx) :
    match_transaction oracle tagId tx =
      (spec_tiered_result oracle tagId tx, spec_tiered_calls oracle tagId tx) :=
  match_transaction_spec oracle tagId tx

/-- C4 — For every transaction with a parseable date, tiers 1 and 2 of
`match_transaction` use a date window of 365 days back and 14 days forward
from the transaction date when the amount is positive (credit), and 30
days back and 14 days forward when the amount is negative (debit); tier 3
uses a window of exactly 5 days before to 5 days after the transaction
date. The trace of issued searches is exactly the tier-1 attempts and the
conditional tier-2/tier-3 calls, each carrying those bounds. -/
theorem match_transaction_windows (oracle : SearchFn) (tagId : Int) (tx : Tx)
    (y m d : Nat) (h : parseIsoDate tx.date = some (y, m, d)) :
    (match_transaction oracle tagId tx).2 =
      (triedUntilHit (tier1_hit oracle tagId tx) (extract_refs tx)).map
        (fun r => ⟨r,
          some (isoOfOrdinal
            (toOrdinal (y, m, d) - (if tx.amount > 0 then 365 else 30))),
          some (isoOfOrdinal (toOrdinal (y, m, d) + 14))⟩)
      ++ (if (tier1_result oracle tagId tx).isSome then []
          else ⟨tx.counterparty ++ " " ++ abs_amount_str tx,
                 some (isoOfOrdinal
                   (toOrdinal (y, m, d) - (if tx.amount > 0 then 365 else 30))),
                 some (isoOfOrdinal (toOrdinal (y, m, d) + 14))⟩
            :: (if (tier2_result oracle tagId tx).isSome then []
                else [⟨abs_amount_str tx,
                       some (isoOfOrdinal (toOrdinal (y, m, d) - 5)),
                       some (isoOfOrdinal (toOrdinal (y, m, d) + 5))⟩])) := by
  have hw : tx_window tx =
      (some (isoOfOrdinal
        (toOrdinal (y, m, d) - (if tx.amount > 0 then 365 else 30))),
       some (isoOfOrdinal (toOrdinal (y, m, d) + 14))) := by
    simp [tx_window, h]
  have hn : tx_narrow_window tx =
      (some (isoOfOrdinal (toOrdinal (y, m, d) - 5)),
       some (isoOfOrdinal (toOrdinal (y, m, d) + 5))) := by
    simp [tx_narrow_window, h]
  rw [show (match_transaction oracle tagId tx).2 = spec_tiered_calls oracle tagId tx
    from congrArg Prod.snd (match_transaction_spec oracle tagId tx)]
  simp only [spec_tiered_calls, tier1_attempts, tier2call, tier3call, hw, hn]

/-- C10 — For every transaction whose date field is not a valid ISO-format
date string, `match_transaction` does not raise (total in this model): the
date bounds are none and all three search tiers run as unwindowed queries
(no created-date filters on any issued search). -/
theorem match_transaction_bad_date (oracle : SearchFn) (tagId : Int) (tx : Tx)
    (h : parseIsoDate tx.date = none) :
    (match_transaction oracle tagId tx).2 =
      (triedUntilHit (tier1_hit oracle tagId tx) (extract_refs tx)).map
        (fun r => ⟨r, none, none⟩)
      ++ (if (tier1_result oracle tagId tx).isSome then []
          else ⟨tx.counterparty ++ " " ++ abs_amount_str tx, none, none⟩
            :: (if (tier2_result oracle tagId tx).isSome then []
                else [⟨abs_amount_str tx, none, none⟩]))
      ∧ ∀ c ∈ (match_transaction oracle tagId tx).2,
          c.date_from = none ∧ c.date_to = none := by
  have hw : tx_window tx = (none, none) := by simp [tx_window, h]
  have hn : tx_narrow_window tx = (none, none) := by simp [tx_narrow_window, h]
  have htr : (match_transaction oracle tagId tx).2 =
      (triedUntilHit (tier1_hit oracle tagId tx) (extract_refs tx)).map
        (fun r => ⟨r, none, none⟩)
      ++ (if (tier1_result oracle tagId tx).isSome then []
          else ⟨tx.counterparty ++ " " ++ abs_amount_str tx, none, none⟩
            :: (if (tier2_result oracle tagId tx).isSome then []
                else [⟨abs_amount_str tx, none, none⟩])) := by
    rw [show (match_transaction oracle tagId tx).2 = spec_tiered_calls oracle tagId tx
      from congrArg Prod.snd (match_transaction_spec oracle tagId tx)]
    simp only [spec_tiered_calls, tier1_attempts, tier2call, tier3call, hw, hn]
  refine ⟨htr, ?_⟩
  intro c hc
  rw [htr] at hc
  rcases List.mem_append.1 hc with hc | hc
  · obtain ⟨r, _, rfl⟩ := List.mem_map.1 hc
    exact ⟨rfl, rfl⟩
  · split at hc
    · simp at hc
    · rcases List.mem_cons.1 hc with rfl | hc
      · exact ⟨rfl, rfl⟩
      · split at hc
        · simp at hc
        · rcases List.mem_cons.1 hc with rfl | hc
          · exact ⟨rfl, rfl⟩
          · simp at hc

/-- Witness for C1 at a concrete oracle and transaction. -/
theorem match_transaction_never_statement_witness :
    (match_transaction oracleW 3 txW).1 = some ⟨42, "invoice", []⟩
      ∧ (3 : Int) ∉ (Doc.mk 42 "invoice" []).tags :=
  ⟨by decide, match_transaction_never_statement oracleW 3 txW
    ⟨42, "invoice", []⟩ (by decide)⟩

/-- Witness for C4 at a concrete debit transaction dated 2025-03-10. -/
theorem match_transaction_windows_witness :
    parseIsoDate txW.date = some (2025, 3, 10)
      ∧ (match_transaction oracle0 3 txW).2 =
        (triedUntilHit (tier1_hit oracle0 3 txW) (extract_refs txW)).map
          (fun r => ⟨r,
            some (isoOfOrdinal
              (toOrdinal (2025, 3, 10) - (if txW.amount > 0 then 365 else 30))),
            some (isoOfOrdinal (toOrdinal (2025, 3, 10) + 14))⟩)
        ++ (if (tier1_result oracle0 3 txW).isSome then []
            else ⟨txW.counterparty ++ " " ++ abs_amount_str txW,
                   some (isoOfOrdinal
                     (toOrdinal (2025, 3, 10) - (if txW.amount > 0 then 365 else 30))),
                   some (isoOfOrdinal (toOrdinal (2025, 3, 10) + 14))⟩
              :: (if (tier2_result oracle0 3 txW).isSome then []
                  else [⟨abs_amount_str txW,
                         some (isoOfOrdinal (toOrdinal (2025, 3, 10) - 5)),
                         some (isoOfOrdinal (toOrdinal (2025, 3, 10) + 5))⟩])) :=
  ⟨by decide, match_transaction_windows oracle0 3 txW 2025 3 10 (by decide)⟩

/-- Witness for C10 at a concrete transaction with an invalid date. -/
theorem match_transaction_bad_date_witness :
    parseIsoDate txBad.date = none
      ∧ ((match_transaction oracle0 3 txBad).2 =
          (triedUntilHit (tier1_hit oracle0 3 txBad) (extract_refs txBad)).map
            (fun r => ⟨r, none, none⟩)
          ++ (if (tier1_result oracle0 3 txBad).isSome then []
              else ⟨txBad.counterparty ++ " " ++ abs_amount_str txBad, none, none⟩
                :: (if (tier2_result oracle0 3 txBad).isSome then []
                    else [⟨abs_amount_str txBad, none, none⟩]))
          ∧ ∀ c ∈ (match_transaction oracle0 3 txBad).2,
              c.date_from = none ∧ c.date_to = none) :=
  ⟨by decide, match_transaction_bad_date oracle0 3 txBad (by decide)⟩

-- ── Orchestrator skip logic and match-field invariant ─────────────────

/-- Counterexample to C5 as stated: a transaction whose `matched_doc_id`
is set (to 0) is not skipped — the orchestrator issues search calls for
it, because the skip test is Python truthiness, not presence. -/
theorem skip_matched_truthy_cex :
    txZero.matched_doc_id.isSome = true
      ∧ (process_tx oracle0 1 txZero).calls ≠ [] := by decide

/-- C5 (amended) — For every transaction whose `matched_doc_id` is set to
a nonzero id (the truthy case) when the orchestrator processes it, no
search call is made, the transaction's match fields are left unchanged,
and it is counted as matched. -/
theorem skip_matched_truthy (oracle : SearchFn) (tagId : Int) (tx : Tx)
    (h : truthy tx.matched_doc_id = true) :
    process_tx oracle tagId tx = ⟨tx, 1, 0, []⟩ := by
  simp [process_tx, h]

/-- Witness for the amended C5 at a concrete matched transaction. -/
theorem skip_matched_truthy_witness :
    truthy txDone.matched_doc_id = true
      ∧ process_tx oracle0 1 txDone = ⟨txDone, 1, 0, []⟩ :=
  ⟨by decide, skip_matched_truthy oracle0 1 txDone (by decide)⟩

/-- C6 — Every operation preserves the transaction invariant that
`matched_doc_id` is set if and only if `matched_title` is present:
transactions are created by extraction without either field, and when a
match is found the orchestrator assigns both fields together. -/
theorem match_fields_invariant :
    (∀ (da : String) (a : Int) (c de r : String),
        (extracted_tx da a c de r).matched_doc_id = none
          ∧ (extracted_tx da a c de r).matched_title = none)
    ∧ ∀ (oracle : SearchFn) (tagId : Int) (tx : Tx),
        tx.matched_doc_id.isSome = tx.matched_title.isSome →
        (process_tx oracle tagId tx).tx.matched_doc_id.isSome
          = (process_tx oracle tagId tx).tx.matched_title.isSome := by
  refine ⟨fun da a c de r => ⟨rfl, rfl⟩, ?_⟩
  intro oracle tagId tx h
  unfold process_tx
  split
  · exact h
  · cases hm : (match_transaction oracle tagId tx).1 <;> simp [hm, h]

/-- Witness for C6 at a concrete oracle and transaction. -/
theorem match_fields_invariant_witness :
    txW.matched_doc_id.isSome = txW.matched_title.isSome
      ∧ (process_tx oracleW 3 txW).tx.matched_doc_id.isSome
        = (process_tx oracleW 3 txW).tx.matched_title.isSome :=
  ⟨by decide, match_fields_invariant.2 oracleW 3 txW (by decide)⟩

-- ── Coverage reporting ────────────────────────────────────────────────

/-- Counterexample to C3 as stated: with zero transactions the summary
contains no coverage line at all — the `if total:` guard omits it rather
than reporting `0%`. -/
theorem coverage_zero_total_cex :
    summary_lines 0 0 =
      [String.mk (List.replicate 60 '═'), "Total: 0 transactions",
       "  Matched:   0", "  Unmatched: 0"]
      ∧ ("  Coverage:  0%" : String) ∉ summary_lines 0 0 := by decide

/-- C3 (amended) — The coverage percentage is computed as
`matched / total * 100` and rounded (`matched=7, unmatched=3` reports
70%); when the total is zero the run does not divide (total in this
model) and the coverage line is omitted entirely: a coverage line is
present in the summary exactly when the total is nonzero. -/
theorem coverage_summary_amended :
    ("  Coverage:  70%" : String) ∈ summary_lines 7 3
      ∧ ∀ total_matched total_unmatched : Nat,
          (("  Coverage:  " ++
              toString (coveragePct total_matched (total_matched + total_unmatched))
              ++ "%")
            ∈ summary_lines total_matched total_unmatched)
          ↔ total_matched + total_unmatched ≠ 0 := by
  refine ⟨by decide, ?_⟩
  intro m u
  by_cases h0 : m + u = 0
  · obtain ⟨rfl, rfl⟩ : m = 0 ∧ u = 0 := by omega
    decide
  · exact iff_of_true (by simp [summary_lines, h0]) h0

-- ── Note synchronizer properties ──────────────────────────────────────

/-- The accumulator loop of `String.intercalate` only ever appends. -/
theorem intercalate_go_starts (s : String) (l : List String) :
    ∀ acc : String, ∃ t, String.intercalate.go acc s l = acc ++ t := by
  induction l with
  | nil => intro acc; exact ⟨"", by simp [String.intercalate.go]⟩
  | cons a as ih =>
    intro acc
    obtain ⟨t, ht⟩ := ih (acc ++ s ++ a)
    refine ⟨s ++ a ++ t, ?_⟩
    simp only [String.intercalate.go]
    rw [ht]
    simp [String.append_assoc]

/-- The rendered note text starts with the `[AUDIT] k/n` header, where k
counts the transactions with a truthy `matched_doc_id` and n all of them. -/
theorem audit_note_text_starts (txs : List Tx) :
    ∃ t, audit_note_text txs =
      "[AUDIT] "
        ++ toString (txs.filter (fun tx => truthy tx.matched_doc_id)).length
        ++ "/" ++ toString txs.length ++ t := by
  unfold audit_note_text
  simp only [audit_note_parts, List.cons_append, List.nil_append,
    String.intercalate]
  obtain ⟨t, ht⟩ := intercalate_go_starts "\n\n"
    ((if (List.filter (fun tx => !truthy tx.matched_doc_id) txs).isEmpty then []
      else ("\n[MISSING]["
          ++ toString (List.filter (fun tx => !truthy tx.matched_doc_id) txs).length
          ++ "/" ++ toString txs.length ++ "]")
        :: (List.filter (fun tx => !truthy tx.matched_doc_id) txs).map
            (fun tx => format_tx_block tx "✗"))
      ++ (if (List.filter (fun tx => truthy tx.matched_doc_id) txs).isEmpty then []
      else ("\n[MATCHED]["
          ++ toString (List.filter (fun tx => truthy tx.matched_doc_id) txs).length
          ++ "/" ++ toString txs.length ++ "]")
        :: (List.filter (fun tx => truthy tx.matched_doc_id) txs).map
            (fun tx => format_tx_block tx "✓")))
    ("[AUDIT] "
      ++ toString (txs.filter (fun tx => truthy tx.matched_doc_id)).length
      ++ "/" ++ toString txs.length)
  exact ⟨t, ht⟩

/-- Anything starting with the literal audit marker is an audit note. -/
theorem is_audit_of_append (z : String) :
    is_audit_note ("[AUDIT]" ++ z) = true := by
  unfold is_audit_note strStartsWith AUDIT_MARKER
  rw [ List.isPrefixOf_iff_prefix, String.data_append]
  exact List.prefix_append _ _

/-- The freshly rendered note text is recognized as an audit note. -/
theorem is_audit_note_rendered (txs : List Tx) :
    is_audit_note (audit_note_text txs) = true := by
  obtain ⟨t, ht⟩ := audit_note_text_starts txs
  rw [ht, show ("[AUDIT] " : String) = "[AUDIT]" ++ " " from by decide,
    String.append_assoc, String.append_assoc, String.append_assoc,
    String.append_assoc]
  exact is_audit_of_append _

/-- Counterexample to C7 as stated: when the existing audit note's id is 0
(falsy), the `if old_id:` guard skips the delete, and after the call the
document carries two audit notes. -/
theorem audit_note_zero_id_cex :
    ((notesZ.filter (fun n => is_audit_note n.note)).length ≤ 1)
      ∧ ((write_audit_note notesZ 5 []).filter
          (fun n => is_audit_note n.note)).length = 2 := by decide

/-- C7 (amended) — For every statement document that holds at most one
audit note before the call, and whose audit notes carry nonzero (truthy)
ids, `write_audit_note` leaves exactly one audit note afterwards: it
deletes the located existing audit note and creates one freshly rendered
note. -/
theorem audit_note_unique (notes : List Note) (new_id : Nat) (txs : List Tx)
    (h1 : (notes.filter (fun n => is_audit_note n.note)).length ≤ 1)
    (h2 : ∀ n ∈ notes, is_audit_note n.note = true → n.id ≠ 0) :
    ((write_audit_note notes new_id txs).filter
        (fun n => is_audit_note n.note)).length = 1 := by
  cases hE : get_existing_audit_note notes with
  | none =>
    have hw : write_audit_note notes new_id txs
        = notes ++ [⟨new_id, audit_note_text txs⟩] := by
      unfold write_audit_note
      rw [hE]
    have hnone : notes.filter (fun n => is_audit_note n.note) = [] := by
      unfold get_existing_audit_note at hE
      cases hfind : notes.find? (fun n => is_audit_note n.note) with
      | none => exact List.filter_eq_nil_iff.2 (List.find?_eq_none.1 hfind)
      | some n => rw [hfind] at hE; simp at hE
    rw [hw, List.filter_append, hnone]
    simp [is_audit_note_rendered]
  | some pair =>
    obtain ⟨oldId, oldText⟩ := pair
    unfold get_existing_audit_note at hE
    cases hfind : notes.find? (fun n => is_audit_note n.note) with
    | none => rw [hfind] at hE; simp at hE
    | some n0 =>
      rw [hfind] at hE
      simp only [Option.map_some', Option.some.injEq, Prod.mk.injEq] at hE
      obtain ⟨hid, htext⟩ := hE
      have hmem : n0 ∈ notes := List.mem_of_find?_eq_some hfind
      have haud : is_audit_note n0.note = true := by
        have := List.find?_some hfind
        simpa using this
      have hne : oldId ≠ 0 := hid ▸ h2 n0 hmem haud
      have hw : write_audit_note notes new_id txs
          = notes.filter (fun n => decide (n.id ≠ oldId))
            ++ [⟨new_id, audit_note_text txs⟩] := by
        unfold write_audit_note
        rw [show get_existing_audit_note notes = some (oldId, oldText) by
          unfold get_existing_audit_note; rw [hfind]; simp [hid, htext]]
        simp [hne]
      have hone : notes.filter (fun n => is_audit_note n.note) = [n0] := by
        have hmemf : n0 ∈ notes.filter (fun n => is_audit_note n.note) :=
          List.mem_filter.2 ⟨hmem, haud⟩
        have hlen1 : (notes.filter (fun n => is_audit_note n.note)).length = 1 := by
          have := List.length_pos.2 (List.ne_nil_of_mem hmemf)
          omega
        obtain ⟨a, ha⟩ := List.length_eq_one.1 hlen1
        rw [ha] at hmemf ⊢
        simp only [List.mem_singleton] at hmemf
        rw [hmemf]
      have hcomm : (notes.filter (fun n => decide (n.id ≠ oldId))).filter
            (fun n => is_audit_note n.note)
          = (notes.filter (fun n => is_audit_note n.note)).filter
            (fun n => decide (n.id ≠ oldId)) := by
        rw [List.filter_filter, List.filter_filter]
        congr 1
        funext n
        exact Bool.and_comm _ _
      rw [hw, List.filter_append, hcomm, hone]
      simp [hid, is_audit_note_rendered]

/-- Witness for the amended C7 at a concrete note list. -/
theorem audit_note_unique_witness :
    ((notesA.filter (fun n => is_audit_note n.note)).length ≤ 1)
      ∧ (∀ n ∈ notesA, is_audit_note n.note = true → n.id ≠ 0)
      ∧ ((write_audit_note notesA 5 [txDone]).filter
          (fun n => is_audit_note n.note)).length = 1 :=
  ⟨by decide, by decide, audit_note_unique notesA 5 [txDone] (by decide) (by decide)⟩

/-- The lengths of a filter and of its complement sum to the length. -/
theorem length_filter_not_add {α : Type} (p : α → Bool) (l : List α) :
    (l.filter p).length + (l.filter (fun a => !p a)).length = l.length := by
  induction l with
  | nil => rfl
  | cons a as ih => cases h : p a <;> simp [List.filter_cons, h] <;> omega

/-- Counterexample to C8 as stated: a transaction whose `matched_doc_id`
is set (to 0) is counted by the renderer's truthiness test as unmatched,
so the header reads `[AUDIT] 0/1`, not `[AUDIT] 1/1`. -/
theorem audit_note_header_truthy_cex :
    txZero.matched_doc_id.isSome = true
      ∧ strStartsWith (audit_note_text [txZero]) "[AUDIT] 1/1" = false
      ∧ strStartsWith (audit_note_text [txZero]) "[AUDIT] 0/1" = true := by
  decide

/-- C8 (amended) — For every list of transactions, the rendered note text
starts with the header `[AUDIT] k/n`, where k is the count of transactions
with a truthy (nonzero) `matched_doc_id` and n the total count; the parts
of the note are exactly that header, then the `[MISSING][n-k/n]` section
(with one block per non-truthy transaction) present if and only if k < n,
then the `[MATCHED][k/n]` section (one block per truthy transaction)
present if and only if k > 0. -/
theorem audit_note_structure (txs : List Tx) :
    (∃ t, audit_note_text txs =
        "[AUDIT] "
          ++ toString (txs.filter (fun tx => truthy tx.matched_doc_id)).length
          ++ "/" ++ toString txs.length ++ t)
    ∧ audit_note_parts txs =
        ["[AUDIT] "
            ++ toString (txs.filter (fun tx => truthy tx.matched_doc_id)).length
            ++ "/" ++ toString txs.length]
        ++ (if (txs.filter (fun tx => truthy tx.matched_doc_id)).length
              < txs.length then
              ("\n[MISSING]["
                  ++ toString (txs.length
                      - (txs.filter (fun tx => truthy tx.matched_doc_id)).length)
                  ++ "/" ++ toString txs.length ++ "]")
                :: (txs.filter (fun tx => !truthy tx.matched_doc_id)).map
                    (fun tx => format_tx_block tx "✗")
            else [])
        ++ (if 0 < (txs.filter (fun tx => truthy tx.matched_doc_id)).length then
              ("\n[MATCHED]["
                  ++ toString (txs.filter (fun tx => truthy tx.matched_doc_id)).length
                  ++ "/" ++ toString txs.length ++ "]")
                :: (txs.filter (fun tx => truthy tx.matched_doc_id)).map
                    (fun tx => format_tx_block tx "✓")
            else []) := by
  refine ⟨audit_note_text_starts txs, ?_⟩
  have hpart : (txs.filter (fun tx => truthy tx.matched_doc_id)).length
      + (txs.filter (fun tx => !truthy tx.matched_doc_id)).length = txs.length := by
    simpa using length_filter_not_add (fun tx => truthy tx.matched_doc_id) txs
  simp only [audit_note_parts]
  rcases Nat.lt_or_ge
      (txs.filter (fun tx => truthy tx.matched_doc_id)).length txs.length with
    hlt | hge
  · have hmne : txs.filter (fun tx => !truthy tx.matched_doc_id) ≠ [] := by
      intro h0
      rw [h0] at hpart
      simp only [List.length_nil, Nat.add_zero] at hpart
      omega
    have hE1 : (txs.filter (fun tx => !truthy tx.matched_doc_id)).isEmpty = false :=
      List.isEmpty_eq_false.2 hmne
    have hmlen : (txs.filter (fun tx => !truthy tx.matched_doc_id)).length
        = txs.length - (txs.filter (fun tx => truthy tx.matched_doc_id)).length := by
      omega
    by_cases hmat : txs.filter (fun tx => truthy tx.matched_doc_id) = []
    · have hE2 : (txs.filter (fun tx => truthy tx.matched_doc_id)).isEmpty = true := by
        simp [hmat]
      have hk0 : ¬ (0 < (txs.filter (fun tx => truthy tx.matched_doc_id)).length) := by
        rw [hmat]
        simp
      simp [hE1, hE2, hmlen, hlt, hk0]
    · have hE2 : (txs.filter (fun tx => truthy tx.matched_doc_id)).isEmpty = false :=
        List.isEmpty_eq_false.2 hmat
      have hk0 : 0 < (txs.filter (fun tx => truthy tx.matched_doc_id)).length :=
        List.length_pos.2 hmat
      simp [hE1, hE2, hmlen, hlt, hk0]
  · have hmeq : txs.filter (fun tx => !truthy tx.matched_doc_id) = [] := by
      have h0 : (txs.filter (fun tx => !truthy tx.matched_doc_id)).length = 0 := by
        have := List.length_filter_le (fun tx => truthy tx.matched_doc_id) txs
        omega
      exact List.length_eq_zero.1 h0
    have hE1 : (txs.filter (fun tx => !truthy tx.matched_doc_id)).isEmpty = true := by
      simp [hmeq]
    have hnlt : ¬ ((txs.filter (fun tx => truthy tx.matched_doc_id)).length
        < txs.length) := by
      omega
    by_cases hmat : txs.filter (fun tx => truthy tx.matched_doc_id) = []
    · have hE2 : (txs.filter (fun tx => truthy tx.matched_doc_id)).isEmpty = true := by
        simp [hmat]
      have hk0 : ¬ (0 < (txs.filter (fun tx => truthy tx.matched_doc_id)).length) := by
        rw [hmat]
        simp
      simp [hE1, hE2, hnlt, hk0]
    · have hE2 : (txs.filter (fun tx => truthy tx.matched_doc_id)).isEmpty = false :=
        List.isEmpty_eq_false.2 hmat
      have hk0 : 0 < (txs.filter (fun tx => truthy tx.matched_doc_id)).length :=
        List.length_pos.2 hmat
      simp [hE1, hE2, hnlt, hk0]

/-- Counterexample to C9 as stated: on the description
`"xDH-202512-10218y"` rule (a) extracts `"DH-202512-10218"`, which is a
fragment of the single whitespace-delimited token of the description, not
a whole token. -/
theorem extract_refs_fragment_cex :
    extract_refs txFrag = ["DH-202512-10218"]
      ∧ wsTokens txFrag.description = ["xDH-202512-10218y"]
      ∧ ("DH-202512-10218" : String) ∉ wsTokens txFrag.description := by
  decide

/-- C9 (amended) — Rule (a) matches occurrences of the
alphabetic-prefix + digit-group pattern anywhere inside the description,
not only at whole-token boundaries: on `"Invoice DH-202512-10218 payment"`
it yields exactly the token `"DH-202512-10218"`, and a code embedded in a
longer token (`"xDH-202512-10218y"`) yields that same extracted code. -/
theorem extract_refs_rule_a_amended :
    extract_refs txExample = ["DH-202512-10218"]
      ∧ extract_refs txFrag = ["DH-202512-10218"] := by
  decide
